import Mathlib

set_option linter.unusedVariables false

/-!
Verification of the Governance1 backend (Flask app `app.py`, translation adapter
`OpenRouterTranslate.py`, DB seeds `populate_services.py` / `setup_applications.py`)
against its natural-language specification.

The Python code is shallowly embedded: each handler becomes a pure Lean function
over an explicit database state (a list of rows) and explicit oracles for the
remote model calls (`RemoteOutcome`) and for randomness (a `Nat` seed).
-/

namespace Governance

/-! ### Python string primitives
`pyStrip`, `pyLower`, `pySplit` model Python's `str.strip()`, `str.lower()` and
`str.split()` (no arguments) over ASCII whitespace; `pyOr` models `a or b` for an
optional string (absent / `None` / `""` are falsy); `pyTruthy` models truthiness. -/

def pySpace (c : Char) : Bool :=
  c == ' ' || c == '\t' || c == '\n' || c == '\r' || c == '\x0b' || c == '\x0c'

def pyStripList (s : List Char) : List Char :=
  ((s.dropWhile pySpace).reverse.dropWhile pySpace).reverse

def pyStrip (s : String) : String := ⟨pyStripList s.data⟩

def pyLower (s : String) : String := ⟨s.data.map Char.toLower⟩

def pyTruthy : Option String → Bool
  | none => false
  | some s => !(s == "")

def pyOr (v : Option String) (d : String) : String :=
  match v with
  | none => d
  | some s => if s = "" then d else s

def pyOrS (a b : String) : String := if a = "" then b else a

def pySplitAux : List Char → List Char → List String
  | [], acc => if acc = [] then [] else [⟨acc.reverse⟩]
  | c :: rest, acc =>
    if pySpace c then
      if acc = [] then pySplitAux rest [] else ⟨acc.reverse⟩ :: pySplitAux rest []
    else pySplitAux rest (c :: acc)

def pySplit (s : String) : List String := pySplitAux s.data []

/-! ### Translation adapter (`src/OpenRouterTranslate.py`)
The remote chat-completion call is modelled by an oracle `RemoteOutcome`:
either the raw response string the model returned, or a failure (timeout,
auth error, malformed response — anything the Python `except` catches). -/

inductive RemoteOutcome where
  | success (response : String)
  | failure
  deriving DecidableEq

/-- `OpenRouterTranslate.__init__`: `initialized` is true iff an API key was
available; the only state the methods consult. -/
structure OpenRouterTranslate where
  initialized : Bool
  deriving DecidableEq

/-- `OpenRouterTranslate._mock_translate`: the deterministic local fallback —
a fixed bracketed tag prefixed to the text for nine hard-coded codes, the text
unchanged otherwise. -/
def mock_translate (text target_language : String) : String :=
  if target_language = "hi" then "[हिंदी अनुवाद] " ++ text
  else if target_language = "ta" then "[தமிழ் மொழிபெயர்ப்பு] " ++ text
  else if target_language = "te" then "[తెలుగు అనువాదం] " ++ text
  else if target_language = "bn" then "[বাংলা অনুবাদ] " ++ text
  else if target_language = "mr" then "[मराठी अनुवाद] " ++ text
  else if target_language = "gu" then "[ગુજરાતી અનુવાદ] " ++ text
  else if target_language = "kn" then "[ಕನ್ನಡ ಅನುವಾದ] " ++ text
  else if target_language = "ml" then "[മലയാളം വിവർത്തനം] " ++ text
  else if target_language = "pa" then "[ਪੰਜਾਬੀ ਅਨੁਵਾਦ] " ++ text
  else text

/-- The nine target codes `_mock_translate` recognises. -/
def mockLangs : List String := ["hi", "ta", "te", "bn", "mr", "gu", "kn", "ml", "pa"]

/-- `OpenRouterTranslate.translate`: uninitialized → mock; remote success →
trimmed response; remote failure → mock. Never raises past its boundary
(both exits of the `try` are modelled). -/
def OpenRouterTranslate.translate (o : OpenRouterTranslate) (remote : RemoteOutcome)
    (text source_language target_language : String) : String :=
  if o.initialized = false then mock_translate text target_language
  else
    match remote with
    | RemoteOutcome.success r => pyStrip r
    | RemoteOutcome.failure => mock_translate text target_language

/-- Post-processing of the raw detection response in
`OpenRouterTranslate.detect_language`: strip, lower; if the result is longer
than 2 characters, take the first whitespace-separated token of exactly 2
characters (else "en"); otherwise return the result as is. -/
def postprocess_detect (raw : String) : String :=
  let detected_lang := pyLower (pyStrip raw)
  if detected_lang.length > 2 then
    match (pySplit detected_lang).find? (fun w => w.length == 2) with
    | some w => w
    | none => "en"
  else detected_lang

/-- `OpenRouterTranslate.detect_language`: "en" when uninitialized or on remote
failure, otherwise the post-processed raw response. -/
def OpenRouterTranslate.detect_language (o : OpenRouterTranslate)
    (remote : RemoteOutcome) : String :=
  if o.initialized = false then "en"
  else
    match remote with
    | RemoteOutcome.success r => postprocess_detect r
    | RemoteOutcome.failure => "en"

/-! ### App-level translation helpers (`src/app.py` lines 237–257) -/

/-- `app.translate_text`: the no-op short-circuit (`not target_language or
(source_language and source_language.lower() == target_language.lower())`),
then the adapter call, or the bracketed "translation unavailable" fallback when
no translator object exists. The second component counts adapter invocations. -/
def translate_text (translator : Option OpenRouterTranslate) (remote : RemoteOutcome)
    (text : String) (source_language target_language : Option String) : String × Nat :=
  if pyTruthy target_language = false ∨
      (pyTruthy source_language = true ∧
        pyLower (source_language.getD "") = pyLower (target_language.getD "")) then
    (text, 0)
  else
    match translator with
    | some t => (t.translate remote text (pyOr source_language "auto")
        (target_language.getD ""), 1)
    | none => ("[" ++ target_language.getD "" ++ " translation unavailable] " ++ text, 0)

/-- `app.detect_language`: delegate to the adapter when present, else "en"
(the adapter itself never raises, so the `except` branch is unreachable). -/
def detect_language (translator : Option OpenRouterTranslate)
    (remote : RemoteOutcome) : String :=
  match translator with
  | some t => t.detect_language remote
  | none => "en"

/-! ### Helper lemmas -/

theorem pyLower_empty_iff (x : String) : pyLower x = "" ↔ x = "" := by
  constructor
  · intro h
    cases x with
    | mk d =>
      cases d with
      | nil => rfl
      | cons c cs =>
        have h2 := congrArg String.data h
        simp [pyLower] at h2
  · intro h
    subst h
    rfl

/-! ### Claims about translation -/

/-- Claim C2: `translate_text` with case-insensitively equal source and target
languages returns the text unchanged, and likewise when the target language is
absent — a no-op short-circuit issuing no adapter call (count 0) and applying
no fallback transformation. -/
theorem C2_translate_noop (translator : Option OpenRouterTranslate)
    (remote : RemoteOutcome) (text s t : String) (src : Option String)
    (h : pyLower s = pyLower t) :
    translate_text translator remote text (some s) (some t) = (text, 0) ∧
    translate_text translator remote text src none = (text, 0) := by
  constructor
  · unfold translate_text
    by_cases ht : t = ""
    · rw [if_pos (Or.inl (by simp [pyTruthy, ht]))]
    · have hs : s ≠ "" := by
        intro hs0
        apply ht
        rw [← pyLower_empty_iff, ← h, hs0]
        rfl
      rw [if_pos (Or.inr ⟨by simp [pyTruthy, hs], h⟩)]
  · unfold translate_text
    simp [pyTruthy]

/-- Witness for C2 at a concrete input. -/
theorem C2_translate_noop_witness :
    translate_text none RemoteOutcome.failure "hola" (some "ES") (some "es") = ("hola", 0) ∧
    translate_text none RemoteOutcome.failure "hola" (some "fr") none = ("hola", 0) :=
  ⟨(C2_translate_noop none RemoteOutcome.failure "hola" "ES" "es" (some "fr")
      (by decide)).1,
   (C2_translate_noop none RemoteOutcome.failure "hola" "ES" "es" (some "fr")
      (by decide)).2⟩

/-- Claim C7: with an unconfigured adapter or a failed remote call, translation
falls back to `mock_translate`: target "hi" yields the fixed bracketed Hindi tag
prefixed to the text (likewise for the other eight hard-coded codes), any other
target code returns the text unchanged; at the app level, an uninitialized
translator with target "hi" returns the tagged text. -/
theorem C7_mock_fallback (remote : RemoteOutcome) (text source target : String)
    (hother : target ∉ mockLangs) :
    OpenRouterTranslate.translate ⟨false⟩ remote text source target
      = mock_translate text target ∧
    OpenRouterTranslate.translate ⟨true⟩ RemoteOutcome.failure text source target
      = mock_translate text target ∧
    mock_translate text "hi" = "[हिंदी अनुवाद] " ++ text ∧
    mock_translate text "ta" = "[தமிழ் மொழிபெயர்ப்பு] " ++ text ∧
    mock_translate text "te" = "[తెలుగు అనువాదం] " ++ text ∧
    mock_translate text "bn" = "[বাংলা অনুবাদ] " ++ text ∧
    mock_translate text "mr" = "[मराठी अनुवाद] " ++ text ∧
    mock_translate text "gu" = "[ગુજરાતી અનુવાદ] " ++ text ∧
    mock_translate text "kn" = "[ಕನ್ನಡ ಅನುವಾದ] " ++ text ∧
    mock_translate text "ml" = "[മലയാളം വിവർത്തനം] " ++ text ∧
    mock_translate text "pa" = "[ਪੰਜਾਬੀ ਅਨੁਵਾਦ] " ++ text ∧
    mock_translate text target = text ∧
    translate_text (some ⟨false⟩) remote text (some "en") (some "hi")
      = ("[हिंदी अनुवाद] " ++ text, 1) := by
  simp only [mockLangs, List.mem_cons, List.not_mem_nil, or_false] at hother
  push_neg at hother
  obtain ⟨h1, h2, h3, h4, h5, h6, h7, h8, h9⟩ := hother
  refine ⟨rfl, rfl, rfl, rfl, rfl, rfl, rfl, rfl, rfl, rfl, rfl, ?_, ?_⟩
  · simp [mock_translate, h1, h2, h3, h4, h5, h6, h7, h8, h9]
  · unfold translate_text
    rw [if_neg (by decide)]
    rfl

/-- Witness for C7 at a concrete input. -/
theorem C7_mock_fallback_witness :
    OpenRouterTranslate.translate ⟨false⟩ RemoteOutcome.failure "hello" "en" "fr"
      = mock_translate "hello" "fr" ∧
    mock_translate "hello" "fr" = "hello" :=
  ⟨(C7_mock_fallback RemoteOutcome.failure "hello" "en" "fr" (by decide)).1,
   (C7_mock_fallback RemoteOutcome.failure "hello" "en" "fr" (by decide)).2.2.2.2.2.2.2.2.2.2.2.1⟩

/-! ### Claims about language detection -/

theorem postprocess_detect_spec (raw : String) :
    (postprocess_detect raw).length ≤ 2 ∧
    ((pyLower (pyStrip raw)).length > 2 →
      (postprocess_detect raw).length = 2 ∨ postprocess_detect raw = "en") := by
  simp only [postprocess_detect]
  by_cases hl : (pyLower (pyStrip raw)).length > 2
  · rw [if_pos hl]
    cases hf : (pySplit (pyLower (pyStrip raw))).find? (fun w => w.length == 2) with
    | none => exact ⟨by decide, fun _ => Or.inr rfl⟩
    | some w =>
      have hw2 : w.length = 2 := by simpa using List.find?_some hf
      exact ⟨hw2.le, fun _ => Or.inl hw2⟩
  · rw [if_neg hl]
    exact ⟨by omega, fun h => absurd h hl⟩

/-- Claim C3 counterexample: with a configured adapter and raw model response
"a", `detect_language` returns "a" — a 1-character string, not a 2-character
code, refuting "returns a string of exactly 2 characters" as stated. -/
theorem C3_detect_counterexample :
    OpenRouterTranslate.detect_language ⟨true⟩ (RemoteOutcome.success "a") = "a" ∧
    (OpenRouterTranslate.detect_language ⟨true⟩ (RemoteOutcome.success "a")).length ≠ 2 := by
  decide

/-- Claim C3 (amended): `detect_language` never raises and returns a string of
AT MOST 2 characters: "en" when unconfigured or on remote failure; when the
stripped lowered raw response is longer than 2 characters, the first 2-character
whitespace token (else "en"); otherwise the stripped lowered raw response
itself, which may have fewer than 2 characters. The app-level wrapper returns
"en" when no translator exists. -/
theorem C3_detect_amended (o : OpenRouterTranslate) (remote : RemoteOutcome) :
    (OpenRouterTranslate.detect_language o remote).length ≤ 2 ∧
    (o.initialized = false → OpenRouterTranslate.detect_language o remote = "en") ∧
    (remote = RemoteOutcome.failure → OpenRouterTranslate.detect_language o remote = "en") ∧
    (∀ raw, remote = RemoteOutcome.success raw → o.initialized = true →
      (pyLower (pyStrip raw)).length > 2 →
      (OpenRouterTranslate.detect_language o remote).length = 2 ∨
        OpenRouterTranslate.detect_language o remote = "en") ∧
    detect_language none remote = "en" := by
  unfold OpenRouterTranslate.detect_language
  by_cases hi : o.initialized = false
  · rw [if_pos hi]
    exact ⟨by decide, fun _ => rfl, fun _ => rfl, fun _ _ _ _ => Or.inr rfl, rfl⟩
  · rw [if_neg hi]
    cases remote with
    | failure =>
      exact ⟨by decide, fun h => absurd h hi, fun _ => rfl,
        fun raw2 heq => RemoteOutcome.noConfusion heq, rfl⟩
    | success raw =>
      refine ⟨(postprocess_detect_spec raw).1, fun h => absurd h hi,
        fun h => RemoteOutcome.noConfusion h, ?_, rfl⟩
      intro raw2 heq _ hlen
      cases heq
      exact (postprocess_detect_spec raw).2 hlen

/-- Witness for the amended C3 at a concrete input. -/
theorem C3_detect_amended_witness :
    (OpenRouterTranslate.detect_language ⟨true⟩
        (RemoteOutcome.success "french fr")).length = 2 ∨
      OpenRouterTranslate.detect_language ⟨true⟩
        (RemoteOutcome.success "french fr") = "en" :=
  (C3_detect_amended ⟨true⟩ (RemoteOutcome.success "french fr")).2.2.2.1 "french fr"
    rfl rfl (by decide)

/-! ### Chat endpoint (`src/app.py` lines 214–215 and 283–320)
`api_chat` is embedded as a pure function of the request fields plus two
oracles: `detected` (what `detect_language(message)` would return) and `fresh`
(what `generate_session_id()` would return). Its adapter invocations are
recorded as an event trace. -/

/-- `uuid.uuid4().hex`: uuid4 draws 128 random bits (six of them forced to the
version/variant values, which only restricts WHICH 128-bit value occurs) and
`.hex` renders them as 32 lowercase hexadecimal characters. We model the raw
randomness as a `Nat` reduced mod 2^128 and render it in fixed-width hex. -/
def hexDigitChar (n : Nat) : Char :=
  if n < 10 then Char.ofNat (48 + n) else Char.ofNat (97 + (n - 10))

def natToHex : Nat → Nat → List Char
  | 0, _ => []
  | w + 1, v => natToHex w (v / 16) ++ [hexDigitChar (v % 16)]

/-- `app.generate_session_id`: `uuid.uuid4().hex`. -/
def generate_session_id (r : Nat) : String := ⟨natToHex 32 (r % 2 ^ 128)⟩

def hexAlphabet : List Char := "0123456789abcdef".data

inductive ChatEvent where
  | translateToEnglish
  | askChat
  | translateToTarget
  deriving DecidableEq

structure ChatResponse where
  http : Nat
  ok : Bool
  session_id : String
  source_language : String
  target_language : String
  events : List ChatEvent
  deriving DecidableEq

/-- `api_chat` line 292: `(data.get("source_language") or "").strip().lower()
or detect_language(message)`. -/
def resolve_source (source_language : Option String) (detected : String) : String :=
  let explicit := pyLower (pyStrip (pyOr source_language ""))
  if explicit = "" then detected else explicit

/-- `api_chat` line 293: `(data.get("target_language") or source_language or
"en").strip().lower()` — `source_language` here is the already-resolved value. -/
def resolve_target (target_language : Option String) (src : String) : String :=
  pyLower (pyStrip (pyOr target_language (pyOrS src "en")))

/-- `app.api_chat`: 400 when the stripped message is empty; otherwise resolve
session and languages, translate to English only when the resolved source is
not "en", ask the chat adapter, translate to the target only when the resolved
target is truthy and not "en". -/
def api_chat (message session_id source_language target_language : Option String)
    (detected fresh : String) : ChatResponse :=
  if pyStrip (pyOr message "") = "" then
    ⟨400, false, "", "", "", []⟩
  else
    let sid := pyOr session_id fresh
    let src := resolve_source source_language detected
    let tgt := resolve_target target_language src
    { http := 200, ok := true, session_id := sid,
      source_language := src, target_language := tgt,
      events :=
        (if src ≠ "en" then [ChatEvent.translateToEnglish] else [])
          ++ [ChatEvent.askChat]
          ++ (if tgt ≠ "" ∧ tgt ≠ "en" then [ChatEvent.translateToTarget] else []) }

theorem api_chat_events (message session_id source_language target_language : Option String)
    (detected fresh : String) (hm : pyStrip (pyOr message "") ≠ "") :
    (api_chat message session_id source_language target_language detected fresh).events
      = (if resolve_source source_language detected ≠ "en"
            then [ChatEvent.translateToEnglish] else [])
        ++ [ChatEvent.askChat]
        ++ (if resolve_target target_language (resolve_source source_language detected) ≠ "" ∧
              resolve_target target_language (resolve_source source_language detected) ≠ "en"
            then [ChatEvent.translateToTarget] else []) := by
  simp [api_chat, hm]

/-- Claim C4: for a non-empty message with resolved source ≠ "en" and resolved
target "en", the adapter trace is exactly [translate-to-English, chat] — one
translation before the chat call, none after; moreover translate-to-English
occurs only if the resolved source differs from "en" and translate-to-target
only if the resolved target differs from "en". -/
theorem C4_chat_flow (message session_id source_language target_language : Option String)
    (detected fresh : String) :
    (pyStrip (pyOr message "") ≠ "" →
      resolve_source source_language detected ≠ "en" →
      resolve_target target_language (resolve_source source_language detected) = "en" →
      (api_chat message session_id source_language target_language detected fresh).events
        = [ChatEvent.translateToEnglish, ChatEvent.askChat]) ∧
    (ChatEvent.translateToEnglish ∈
        (api_chat message session_id source_language target_language detected fresh).events →
      resolve_source source_language detected ≠ "en") ∧
    (ChatEvent.translateToTarget ∈
        (api_chat message session_id source_language target_language detected fresh).events →
      resolve_target target_language (resolve_source source_language detected) ≠ "en") := by
  refine ⟨?_, ?_, ?_⟩
  · intro hmsg hsrc htgt
    simp [api_chat, hmsg, hsrc, htgt]
  · intro hmem
    by_cases hm : pyStrip (pyOr message "") = ""
    · simp [api_chat, hm] at hmem
    · intro hs
      rw [api_chat_events message session_id source_language target_language detected fresh hm,
        hs] at hmem
      rw [if_neg (by decide : ¬(("en" : String) ≠ "en"))] at hmem
      split at hmem <;> simp_all
  · intro hmem
    by_cases hm : pyStrip (pyOr message "") = ""
    · simp [api_chat, hm] at hmem
    · intro ht
      rw [api_chat_events message session_id source_language target_language detected fresh hm,
        ht] at hmem
      rw [if_neg (by decide : ¬(("en" : String) ≠ "" ∧ ("en" : String) ≠ "en"))] at hmem
      split at hmem <;> simp_all

/-- Witness for C4 at a concrete input: message "hola", explicit source "es",
explicit target "en". -/
theorem C4_chat_flow_witness :
    (api_chat (some "hola") none (some "es") (some "en") "es" "f").events
      = [ChatEvent.translateToEnglish, ChatEvent.askChat] :=
  (C4_chat_flow (some "hola") none (some "es") (some "en") "es" "f").1
    (by decide) (by decide) (by decide)

theorem string_mk_length (l : List Char) : (String.mk l).length = l.length := rfl

theorem natToHex_length (w : Nat) : ∀ v, (natToHex w v).length = w := by
  induction w with
  | zero => intro v; rfl
  | succ n ih => intro v; simp [natToHex, ih]

theorem hexDigitChar_mem : ∀ n, n < 16 → hexDigitChar n ∈ hexAlphabet := by decide

theorem natToHex_mem (w : Nat) : ∀ v c, c ∈ natToHex w v → c ∈ hexAlphabet := by
  induction w with
  | zero =>
    intro v c hc
    simp [natToHex] at hc
  | succ n ih =>
    intro v c hc
    simp only [natToHex, List.mem_append, List.mem_singleton] at hc
    rcases hc with hc | hc
    · exact ih _ c hc
    · subst hc
      exact hexDigitChar_mem _ (Nat.mod_lt _ (by norm_num))

/-- Claim C8: a chat request whose session_id is absent (or `null`, both
modelled as `none`) or the empty string gets a freshly generated identifier of
exactly 32 lowercase hexadecimal characters (128 bits); any other supplied
string is passed through unvalidated and echoed unchanged. -/
theorem C8_session_id (message source_language target_language : Option String)
    (detected : String) (r : Nat) (s : String) :
    (generate_session_id r).length = 32 ∧
    (∀ c ∈ (generate_session_id r).data, c ∈ hexAlphabet) ∧
    (pyStrip (pyOr message "") ≠ "" →
      ((api_chat message none source_language target_language detected
          (generate_session_id r)).session_id = generate_session_id r ∧
        (api_chat message (some "") source_language target_language detected
          (generate_session_id r)).session_id = generate_session_id r ∧
        (s ≠ "" →
          (api_chat message (some s) source_language target_language detected
            (generate_session_id r)).session_id = s))) := by
  refine ⟨?_, ?_, ?_⟩
  · rw [generate_session_id, string_mk_length]
    exact natToHex_length 32 _
  · rw [generate_session_id]
    exact fun c hc => natToHex_mem 32 _ c hc
  intro hm
  refine ⟨?_, ?_, ?_⟩
  · rw [api_chat, if_neg hm]
    rfl
  · rw [api_chat, if_neg hm]
    rfl
  · intro hs
    rw [api_chat, if_neg hm]
    show pyOr (some s) (generate_session_id r) = s
    simp [pyOr, hs]

/-- Witness for C8 at a concrete input. -/
theorem C8_session_id_witness :
    (generate_session_id 5).length = 32 ∧
    (api_chat (some "hi") none none none "en" (generate_session_id 5)).session_id
      = generate_session_id 5 ∧
    (api_chat (some "hi") (some "abc") none none "en" (generate_session_id 5)).session_id
      = "abc" :=
  ⟨(C8_session_id (some "hi") none none "en" 5 "abc").1,
   ((C8_session_id (some "hi") none none "en" 5 "abc").2.2 (by decide)).1,
   ((C8_session_id (some "hi") none none "en" 5 "abc").2.2 (by decide)).2.2 (by decide)⟩

/-! ### Record store CRUD (`src/app.py` `init_db` and lines 352–468)
Tables are embedded as lists of rows; SQLite's autoincrement / `lastrowid` is
an explicit `nextId` parameter; `UPDATE ... WHERE id = ?` becomes a map over
rows (zero rows affected when no id matches). -/

structure Complaint where
  id : Nat
  name : String
  contact : String
  issue : String
  status : String
  deriving DecidableEq

structure Application where
  id : Nat
  applicant_name : String
  application_type : String
  details : String
  status : String
  deriving DecidableEq

/-- The JSON envelope of the CRUD responses: HTTP status, `ok`, optional echoed
id and status, optional error string. -/
structure Resp where
  http : Nat
  ok : Bool
  id : Option Nat
  status : Option String
  error : Option String
  deriving DecidableEq

/-- `app.create_complaint` (POST /api/complaints): 400 when the stripped issue
is empty; otherwise insert (name, contact, issue) — the status column takes
the table default "open" — and answer 200 echoing the new id and the literal
status "open" (the stored row is never read back). -/
def create_complaint (db : List Complaint) (nextId : Nat)
    (name contact issue : Option String) : List Complaint × Resp :=
  if pyStrip (pyOr issue "") = "" then
    (db, ⟨400, false, none, none, some "issue is required"⟩)
  else
    (db ++ [⟨nextId, pyStrip (pyOr name ""), pyStrip (pyOr contact ""),
        pyStrip (pyOr issue ""), "open"⟩],
      ⟨200, true, some nextId, some "open", none⟩)

/-- `app.update_complaint` (PATCH /api/complaints/id): 400 when the stripped
status is empty; otherwise an unconditional `UPDATE complaints SET status = ?
WHERE id = ?` followed by a 200 echoing id and status — no existence check. -/
def update_complaint (db : List Complaint) (comp_id : Nat)
    (status : Option String) : List Complaint × Resp :=
  if pyStrip (pyOr status "") = "" then
    (db, ⟨400, false, none, none, some "status is required"⟩)
  else
    (db.map (fun row =>
        if row.id = comp_id then { row with status := pyStrip (pyOr status "") } else row),
      ⟨200, true, some comp_id, some (pyStrip (pyOr status "")), none⟩)

/-- `app.update_application` (PATCH /api/applications/id): same shape as
`update_complaint`. -/
def update_application (db : List Application) (app_id : Nat)
    (status : Option String) : List Application × Resp :=
  if pyStrip (pyOr status "") = "" then
    (db, ⟨400, false, none, none, some "status is required"⟩)
  else
    (db.map (fun row =>
        if row.id = app_id then { row with status := pyStrip (pyOr status "") } else row),
      ⟨200, true, some app_id, some (pyStrip (pyOr status "")), none⟩)

theorem map_eq_self_of_eq {α : Type} (l : List α) (f : α → α)
    (h : ∀ a ∈ l, f a = a) : l.map f = l := by
  induction l with
  | nil => rfl
  | cons a t ih =>
    simp only [List.map_cons, List.cons.injEq]
    exact ⟨h a (List.mem_cons_self a t), ih fun b hb => h b (List.mem_cons_of_mem a hb)⟩

/-- Claim C5: a status update carrying a non-empty status for a complaint id
absent from the store returns 200 with ok true, echoing the id and the status,
reports no error, and leaves the table unchanged (zero rows affected). -/
theorem C5_update_missing_complaint (db : List Complaint) (comp_id : Nat)
    (status : Option String) (hst : pyStrip (pyOr status "") ≠ "")
    (hid : ∀ row ∈ db, row.id ≠ comp_id) :
    update_complaint db comp_id status
      = (db, ⟨200, true, some comp_id, some (pyStrip (pyOr status "")), none⟩) := by
  unfold update_complaint
  rw [if_neg hst, map_eq_self_of_eq db _ (fun row hr => if_neg (hid row hr))]

/-- Witness for C5 at a concrete input. -/
theorem C5_update_missing_complaint_witness :
    update_complaint [⟨1, "a", "b", "pothole", "open"⟩] 2 (some "resolved")
      = ([⟨1, "a", "b", "pothole", "open"⟩],
         ⟨200, true, some 2, some "resolved", none⟩) :=
  C5_update_missing_complaint [⟨1, "a", "b", "pothole", "open"⟩] 2 (some "resolved")
    (by decide) (by decide)

/-- Claim C6: complaint creation whose issue is missing or empty after trimming
returns 400 with the field-specific error and inserts no row. -/
theorem C6_create_complaint_empty_issue (db : List Complaint) (nextId : Nat)
    (name contact issue : Option String) (h : pyStrip (pyOr issue "") = "") :
    create_complaint db nextId name contact issue
      = (db, ⟨400, false, none, none, some "issue is required"⟩) := by
  unfold create_complaint
  rw [if_pos h]

/-- Witness for C6 at a concrete input. -/
theorem C6_create_complaint_empty_issue_witness :
    create_complaint [] 1 (some "Bob") (some "123") (some "   ")
      = ([], ⟨400, false, none, none, some "issue is required"⟩) :=
  C6_create_complaint_empty_issue [] 1 (some "Bob") (some "123") (some "   ") (by decide)

/-- Claim C9: any non-empty trimmed status string — including values outside
the enum-like sets open/in_progress/resolved/closed and
submitted/in_review/approved/rejected — is accepted by both status-update
handlers and stored verbatim on every matching row. -/
theorem C9_status_unconstrained (dbc : List Complaint) (dba : List Application)
    (cid aid : Nat) (status : Option String)
    (h : pyStrip (pyOr status "") ≠ "") :
    (update_complaint dbc cid status).2
      = ⟨200, true, some cid, some (pyStrip (pyOr status "")), none⟩ ∧
    (∀ row ∈ (update_complaint dbc cid status).1, row.id = cid →
      row.status = pyStrip (pyOr status "")) ∧
    (update_application dba aid status).2
      = ⟨200, true, some aid, some (pyStrip (pyOr status "")), none⟩ ∧
    (∀ row ∈ (update_application dba aid status).1, row.id = aid →
      row.status = pyStrip (pyOr status "")) := by
  unfold update_complaint update_application
  rw [if_neg h, if_neg h]
  refine ⟨rfl, ?_, rfl, ?_⟩
  · intro row hr hrid
    rcases List.mem_map.mp hr with ⟨a, ha, rfl⟩
    by_cases hc : a.id = cid
    · simp [hc]
    · rw [if_neg hc] at hrid
      exact absurd hrid hc
  · intro row hr hrid
    rcases List.mem_map.mp hr with ⟨a, ha, rfl⟩
    by_cases hc : a.id = aid
    · simp [hc]
    · rw [if_neg hc] at hrid
      exact absurd hrid hc

/-- Witness for C9 at a concrete input: a status outside both enum-like sets. -/
theorem C9_status_unconstrained_witness :
    (update_complaint [⟨1, "n", "c", "i", "open"⟩] 1 (some "bogus")).2
      = ⟨200, true, some 1, some "bogus", none⟩ ∧
    (update_application [⟨7, "a", "birth", "d", "submitted"⟩] 7 (some "bogus")).2
      = ⟨200, true, some 7, some "bogus", none⟩ :=
  ⟨(C9_status_unconstrained [⟨1, "n", "c", "i", "open"⟩]
      [⟨7, "a", "birth", "d", "submitted"⟩] 1 7 (some "bogus") (by decide)).1,
   (C9_status_unconstrained [⟨1, "n", "c", "i", "open"⟩]
      [⟨7, "a", "birth", "d", "submitted"⟩] 1 7 (some "bogus") (by decide)).2.2.1⟩

/-- Claim C10: complaint creation with a non-empty issue succeeds even when
name and contact are absent or empty — the row is inserted with empty strings
for those fields — and the response always reports status "open" without
reading the stored row (it does not depend on the table contents). -/
theorem C10_create_complaint_defaults (db db2 : List Complaint) (nextId : Nat)
    (name contact issue : Option String) (hi : pyStrip (pyOr issue "") ≠ "") :
    (create_complaint db nextId name contact issue).2
      = ⟨200, true, some nextId, some "open", none⟩ ∧
    (create_complaint db nextId name contact issue).2
      = (create_complaint db2 nextId name contact issue).2 ∧
    (pyStrip (pyOr name "") = "" → pyStrip (pyOr contact "") = "" →
      (create_complaint db nextId name contact issue).1
        = db ++ [⟨nextId, "", "", pyStrip (pyOr issue ""), "open"⟩]) := by
  unfold create_complaint
  rw [if_neg hi]
  refine ⟨rfl, ?_, ?_⟩
  · rw [if_neg hi]
  · intro hn hc
    rw [hn, hc]

/-- Witness for C10 at a concrete input. -/
theorem C10_create_complaint_defaults_witness :
    (create_complaint [] 1 none (some " ") (some " leak ")).2
      = ⟨200, true, some 1, some "open", none⟩ ∧
    (create_complaint [] 1 none (some " ") (some " leak ")).1
      = [] ++ [⟨1, "", "", pyStrip (pyOr (some " leak ") ""), "open"⟩] :=
  ⟨(C10_create_complaint_defaults [] [] 1 none (some " ") (some " leak ")
      (by decide)).1,
   (C10_create_complaint_defaults [] [] 1 none (some " ") (some " leak ")
      (by decide)).2.2 (by decide) (by decide)⟩

/-! ### Applications with service references
(`src/populate_services.py`, `src/setup_applications.py`, and `/api/apply`)
The services table with its seed and the applications-with-service_id schema
are declared under src/; the `/api/apply` handler itself lives in the
superseding handler file that is not under src/ (spec §9 notes the two
coexisting versions; only the missing one defines `/api/apply` and
`/api/services`), so the handler and its ticket generator are modelled from
the spec. -/

structure Service where
  service_id : String
  title : String
  details : String
  deriving DecidableEq

/-- `services_data` from `src/populate_services.py`: the seeded reference
rows inserted with INSERT OR IGNORE. -/
def services_data : List Service :=
  [⟨"revenue", "Revenue Department",
    "- Land Records: View and download your land ownership details.\n- Property Registration: Apply for and track property registration.\n- Income Certificates: Apply for income certificates.\n- Fee: ₹50-₹500 depending on service.\n- Processing Time: 3-7 working days.\n- Contact: revenue-office@state.gov.in"⟩,
   ⟨"municipal", "Municipal Services",
    "- Property Tax: Pay or check outstanding property taxes.\n- Water Supply: Apply for new connection or complaints.\n- Waste Management: Report uncollected garbage.\n- Fee: Variable.\n- Processing Time: 2-5 working days.\n- Contact: municipal-corporation@city.gov.in"⟩,
   ⟨"health", "Health Department",
    "- Medical Certificates: Apply for medical fitness/disability certificates.\n- Vaccination Records: Check immunization details.\n- Health Schemes: Learn about state and central health schemes.\n- Fee: Free for most services.\n- Processing Time: Immediate to 3 days.\n- Contact: health-dept@state.gov.in"⟩,
   ⟨"education", "Education Department",
    "- School Admissions: Apply for government and aided schools.\n- Scholarships: Check eligibility and apply online.\n- Educational Certificates: Duplicate or verification services.\n- Fee: Free or nominal.\n- Processing Time: 5-10 working days.\n- Contact: edu-dept@state.gov.in"⟩,
   ⟨"social_welfare", "Social Welfare Department",
    "- Pension Schemes: Apply for old-age or widow pensions.\n- Disability Certificates: Required for welfare benefits.\n- Welfare Programs: State-funded benefits for underprivileged groups.\n- Fee: Free.\n- Processing Time: 7-15 working days.\n- Contact: socialwelfare@state.gov.in"⟩,
   ⟨"agriculture", "Agriculture Department",
    "- Farmer Registration: Register for crop benefits.\n- Subsidies: Apply for fertilizer, seed, and equipment subsidies.\n- Crop Insurance: Apply and check claim status.\n- Fee: Free to nominal.\n- Processing Time: 5-7 working days.\n- Contact: agri-dept@state.gov.in"⟩]

/-- Row of the applications table declared in `src/setup_applications.py`
(service_id NOT NULL, ticket_number UNIQUE, status default "Submitted"); the
optional file_name/file_data columns are not needed by the claims. -/
structure ApplyRecord where
  id : Nat
  service_id : String
  name : String
  email : String
  phone : String
  purpose : String
  ticket_number : String
  status : String
  deriving DecidableEq

structure ApplyResp where
  http : Nat
  ok : Bool
  ticket_number : Option String
  error : Option String
  deriving DecidableEq

def ticketAlphabet : List Char := "ABCDEFGHIJKLMNOPQRSTUVWXYZ0123456789".data

/-- Modelled from the spec: the ticket-number generator belongs to the missing
`/api/apply` handler file. Spec §3/§8: "ticketNumber (unique, randomly
generated 8-character alphanumeric code, collision not checked)" matching
`[A-Z0-9]{8}` over a 36^8 space — eight independent uniform draws from the
36-character alphabet, modelled as the base-36 digits of a `Nat` seed. -/
def generate_ticket (r : Nat) : String :=
  ⟨(List.range 8).map (fun i => ticketAlphabet.getD (r / 36 ^ i % 36) 'A')⟩

def isTicketChar (c : Char) : Bool :=
  (decide ('A' ≤ c) && decide (c ≤ 'Z')) || (decide ('0' ≤ c) && decide (c ≤ '9'))

/-- The `[A-Z0-9]{8}` ticket-number pattern from spec §8. -/
def matchesTicketPattern (s : String) : Bool :=
  s.length == 8 && s.data.all isTicketChar

/-- The pre-insert existence query on the services table. -/
def serviceExists (services : List Service) (sid : String) : Bool :=
  services.any (fun s => s.service_id == sid)

/-- Modelled from the spec: the `POST /api/apply` handler is in the handler
file absent from src/ (spec §6, §9); only its table declaration
(`setup_applications.py`) and the services seed (`populate_services.py`) are
present. Spec §4.5/§6/§7: creation requires non-empty service_id, name, email
and purpose (400 otherwise); performs a pre-insert existence query on the
services table and answers 404 inserting no row when the service_id is
unknown; otherwise inserts the row with a fresh ticket number and the schema
default status "Submitted" and answers 200 carrying the ticket number. The
optional uploaded document is not modelled. -/
def api_apply (services : List Service) (db : List ApplyRecord) (nextId r : Nat)
    (service_id name email phone purpose : Option String) :
    List ApplyRecord × ApplyResp :=
  if pyStrip (pyOr service_id "") = "" ∨ pyStrip (pyOr name "") = "" ∨
      pyStrip (pyOr email "") = "" ∨ pyStrip (pyOr purpose "") = "" then
    (db, ⟨400, false, none, some "missing required fields"⟩)
  else if serviceExists services (pyStrip (pyOr service_id "")) = false then
    (db, ⟨404, false, none, some "unknown service_id"⟩)
  else
    (db ++ [⟨nextId, pyStrip (pyOr service_id ""), pyStrip (pyOr name ""),
        pyStrip (pyOr email ""), pyStrip (pyOr phone ""), pyStrip (pyOr purpose ""),
        generate_ticket r, "Submitted"⟩],
      ⟨200, true, some (generate_ticket r), none⟩)

theorem string_mk_data (l : List Char) : (String.mk l).data = l := rfl

theorem ticketAlphabet_char :
    ∀ k, k < 36 → isTicketChar (ticketAlphabet.getD k 'A') = true := by decide

theorem generate_ticket_pattern (r : Nat) :
    matchesTicketPattern (generate_ticket r) = true := by
  unfold matchesTicketPattern
  rw [Bool.and_eq_true]
  constructor
  · have hl : (generate_ticket r).length = 8 := by
      rw [generate_ticket, string_mk_length]
      simp
    simp [hl]
  · rw [List.all_eq_true]
    intro c hc
    rw [generate_ticket, string_mk_data] at hc
    rcases List.mem_map.mp hc with ⟨i, hi, rfl⟩
    exact ticketAlphabet_char _ (Nat.mod_lt _ (by norm_num))

/-- Claim C1 (handler modelled from the spec): every stored application's
service_id references an existing Service row at insertion time — the handler
performs a pre-insert existence query; a request naming an unknown service_id
is answered 404 with no row inserted, and one naming a seeded service id is
answered 200 with a ticket number matching `[A-Z0-9]{8}` and the row appended
carries that (existing) service id. -/
theorem C1_service_reference (db : List ApplyRecord) (nextId r : Nat)
    (service_id name email phone purpose : Option String)
    (hs : pyStrip (pyOr service_id "") ≠ "")
    (hn : pyStrip (pyOr name "") ≠ "")
    (he : pyStrip (pyOr email "") ≠ "")
    (hp : pyStrip (pyOr purpose "") ≠ "") :
    (serviceExists services_data (pyStrip (pyOr service_id "")) = false →
      api_apply services_data db nextId r service_id name email phone purpose
        = (db, ⟨404, false, none, some "unknown service_id"⟩)) ∧
    (serviceExists services_data (pyStrip (pyOr service_id "")) = true →
      api_apply services_data db nextId r service_id name email phone purpose
        = (db ++ [⟨nextId, pyStrip (pyOr service_id ""), pyStrip (pyOr name ""),
            pyStrip (pyOr email ""), pyStrip (pyOr phone ""),
            pyStrip (pyOr purpose ""), generate_ticket r, "Submitted"⟩],
          ⟨200, true, some (generate_ticket r), none⟩) ∧
      matchesTicketPattern (generate_ticket r) = true) := by
  have hfields : ¬(pyStrip (pyOr service_id "") = "" ∨ pyStrip (pyOr name "") = "" ∨
      pyStrip (pyOr email "") = "" ∨ pyStrip (pyOr purpose "") = "") := by
    push_neg
    exact ⟨hs, hn, he, hp⟩
  constructor
  · intro hex
    unfold api_apply
    rw [if_neg hfields, if_pos hex]
  · intro hex
    unfold api_apply
    rw [if_neg hfields, if_neg (by simp [hex])]
    exact ⟨rfl, generate_ticket_pattern r⟩

/-- Witness for C1 at concrete inputs: the unknown service id "transport" is
rejected with 404 and no insertion; the seeded id "health" is accepted with a
pattern-conforming ticket. -/
theorem C1_service_reference_witness :
    api_apply services_data [] 1 0 (some "transport") (some "Asha")
        (some "a@x.com") none (some "certificate")
      = ([], ⟨404, false, none, some "unknown service_id"⟩) ∧
    api_apply services_data [] 1 0 (some "health") (some "Asha")
        (some "a@x.com") none (some "certificate")
      = ([] ++ [⟨1, "health", "Asha", "a@x.com", "", "certificate",
          generate_ticket 0, "Submitted"⟩],
        ⟨200, true, some (generate_ticket 0), none⟩) ∧
    matchesTicketPattern (generate_ticket 0) = true :=
  ⟨(C1_service_reference [] 1 0 (some "transport") (some "Asha") (some "a@x.com")
      none (some "certificate") (by decide) (by decide) (by decide) (by decide)).1
      (by decide),
   ((C1_service_reference [] 1 0 (some "health") (some "Asha") (some "a@x.com")
      none (some "certificate") (by decide) (by decide) (by decide) (by decide)).2
      (by decide)).1,
   ((C1_service_reference [] 1 0 (some "health") (some "Asha") (some "a@x.com")
      none (some "certificate") (by decide) (by decide) (by decide) (by decide)).2
      (by decide)).2⟩

end Governance
